import Mathlib

/-!
Verification of `tasks/libs/issue/model/constants.py`, a static
configuration module exposing a model deployment path (`MODEL`), a base
model identifier (`BASE_MODEL`), and a fixed tuple of team labels
(`TEAMS`).  The module body is three top-level assignments and nothing
else; we embed the values, the module namespace produced by executing
the body, and a read operation on that namespace.
-/

namespace IssueModelConstants

/-- `MODEL = "/issue_auto_assign_model"` (constants.py line 1). -/
def MODEL : String := "/issue_auto_assign_model"

/-- `BASE_MODEL = "distilbert-base-uncased-finetuned-sst-2-english"` (constants.py line 2). -/
def BASE_MODEL : String := "distilbert-base-uncased-finetuned-sst-2-english"

/-- `TEAMS = ( ... )` (constants.py lines 3-45): the tuple of team labels,
in source order. -/
def TEAMS : List String :=
  [ "container-ecosystems"
  , "windows-agent"
  , "remote-config"
  , "container-platform"
  , "documentation"
  , "agent-security"
  , "container-app"
  , "agent-all"
  , "processes"
  , "agent-platform"
  , "agent-release-management"
  , "networks"
  , "ebpf-platform"
  , "agent-apm"
  , "single-machine-performance"
  , "agent-e2e-testing"
  , "agent-developer-tools"
  , "triage"
  , "windows-kernel-integrations"
  , "container-integrations"
  , "sdlc-security"
  , "opentelemetry"
  , "universal-service-monitoring"
  , "agent-build-and-releases"
  , "agent-configuration"
  , "agent-runtimes"
  , "agent-integrations"
  , "agent-metric-pipelines"
  , "agent-log-pipelines"
  , "platform-integrations"
  , "agent-ci-experience"
  , "asm-go"
  , "agent-cspm"
  , "debugger"
  , "database-monitoring"
  , "network-device-monitoring"
  , "serverless"
  , "apm-onboarding"
  , "fleet"
  , "agent-processing-and-routing"
  , "agent-discovery"
  ]

/-- A value bound at the module's top level: a string constant or a tuple
of strings.  These are the only value shapes occurring in constants.py. -/
inductive PyValue where
  | str : String → PyValue
  | tupleStr : List String → PyValue
deriving DecidableEq, Repr

/-- A top-level statement of the module body.  constants.py consists
solely of simple name-to-value assignments. -/
inductive Stmt where
  | assign : String → PyValue → Stmt
deriving DecidableEq, Repr

/-- The body of constants.py: its three assignments, in source order. -/
def constantsBody : List Stmt :=
  [ Stmt.assign "MODEL" (PyValue.str MODEL)
  , Stmt.assign "BASE_MODEL" (PyValue.str BASE_MODEL)
  , Stmt.assign "TEAMS" (PyValue.tupleStr TEAMS)
  ]

/-- A module namespace: an association of names to values. -/
def Env : Type := List (String × PyValue)

instance : DecidableEq Env :=
  inferInstanceAs (DecidableEq (List (String × PyValue)))

/-- Executing one assignment binds the name, shadowing any earlier
binding of the same name. -/
def execStmt (env : Env) : Stmt → Env
  | Stmt.assign n v => (n, v) :: List.filter (fun p => p.1 ≠ n) env

/-- Every namespace state the interpreter passes through while loading
the module: the empty namespace, then the state after each statement. -/
def executionStates (body : List Stmt) : List Env :=
  List.scanl execStmt [] body

/-- The module namespace after the whole body has executed. -/
def loadedModule : Env := List.foldl execStmt [] constantsBody

/-- Reading a name from a namespace: returns the bound value (if any)
and leaves the namespace unchanged. -/
def readVar (env : Env) (name : String) : Option PyValue × Env :=
  ((List.find? (fun p => p.1 = name) env).map Prod.snd, env)

/-- The value a read returns, ignoring the (unchanged) namespace. -/
def readValue (env : Env) (name : String) : Option PyValue :=
  (readVar env name).1

/-- An entry is a clean label: non-empty and its first and last
characters are not whitespace (so whitespace-stripping fixes it). -/
def cleanLabel (s : String) : Prop :=
  s.data ≠ [] ∧
    (∀ c, s.data.head? = some c → ¬ c.isWhitespace) ∧
    (∀ c, s.data.getLast? = some c → ¬ c.isWhitespace)

instance : DecidablePred cleanLabel := fun s => by
  unfold cleanLabel; infer_instance

/-- A character admissible in a team slug: lowercase ASCII letter,
decimal digit, or hyphen. -/
def slugChar (c : Char) : Prop :=
  (('a' ≤ c ∧ c ≤ 'z') ∨ ('0' ≤ c ∧ c ≤ '9') ∨ c = '-')

instance : DecidablePred slugChar := fun c => by
  unfold slugChar; infer_instance

/-- An entry is a well-formed slug: every character is a lowercase ASCII
letter, a digit, or a hyphen, and it neither begins nor ends with a
hyphen. -/
def wellFormedSlug (s : String) : Prop :=
  s.data ≠ [] ∧ (∀ c ∈ s.data, slugChar c) ∧
    s.data.head? ≠ some '-' ∧ s.data.getLast? ≠ some '-'

instance : DecidablePred wellFormedSlug := fun s => by
  unfold wellFormedSlug; infer_instance

end IssueModelConstants

namespace IssueModelConstants

/-- C1: the TEAMS tuple has exactly 41 entries. -/
theorem teams_length_41 : TEAMS.length = 41 := by decide

/-- C2: no two entries of TEAMS at distinct indices are equal. -/
theorem teams_pairwise_distinct :
    ∀ i j : Fin TEAMS.length, i ≠ j → TEAMS.get i ≠ TEAMS.get j := by
  have hnd : TEAMS.Nodup := by decide
  intro i j hij
  exact fun h => hij (List.nodup_iff_injective_get.mp hnd h)

/-- C2 witness: the distinctness theorem applied at indices 0 and 1. -/
theorem teams_pairwise_distinct_witness :
    (⟨0, by decide⟩ : Fin TEAMS.length) ≠ ⟨1, by decide⟩ ∧
      TEAMS.get ⟨0, by decide⟩ ≠ TEAMS.get ⟨1, by decide⟩ :=
  ⟨by decide, teams_pairwise_distinct ⟨0, by decide⟩ ⟨1, by decide⟩ (by decide)⟩

/-- C3: every entry of TEAMS is non-empty and has no leading or trailing
whitespace character, so stripping whitespace leaves it unchanged. -/
theorem teams_entries_clean : ∀ s ∈ TEAMS, cleanLabel s := by decide

/-- C3 witness: the cleanliness theorem applied at the first entry. -/
theorem teams_entries_clean_witness :
    "container-ecosystems" ∈ TEAMS ∧ cleanLabel "container-ecosystems" :=
  ⟨by decide, teams_entries_clean "container-ecosystems" (by decide)⟩

/-- C4: both model-reference strings are non-empty. -/
theorem model_strings_nonempty : 0 < MODEL.length ∧ 0 < BASE_MODEL.length := by
  decide

/-- C5: the exact values of the two model-reference strings. -/
theorem model_strings_values :
    MODEL = "/issue_auto_assign_model" ∧
      BASE_MODEL = "distilbert-base-uncased-finetuned-sst-2-english" :=
  ⟨rfl, rfl⟩

/-- C6: in every namespace state arising while (and after) loading the
module, whenever TEAMS is bound at all it is bound to the one fixed
sequence; no statement of the module ever rebinds or mutates it. -/
theorem teams_never_mutated :
    ∀ env ∈ executionStates constantsBody,
      ∀ v, readValue env "TEAMS" = some v → v = PyValue.tupleStr TEAMS := by
  decide

/-- C6 witness: the theorem applied at the fully loaded module state,
where TEAMS is bound. -/
theorem teams_never_mutated_witness :
    loadedModule ∈ executionStates constantsBody ∧
      readValue loadedModule "TEAMS" = some (PyValue.tupleStr TEAMS) ∧
      PyValue.tupleStr TEAMS = PyValue.tupleStr TEAMS :=
  ⟨by decide, by decide,
    teams_never_mutated loadedModule (by decide) (PyValue.tupleStr TEAMS)
      (by decide)⟩

/-- C7: constant access is idempotent and stable: a read leaves the
namespace unchanged, and two successive reads of the same name return
equal values. -/
theorem reads_stable :
    ∀ (env : Env) (name : String),
      (readVar env name).2 = env ∧
        (readVar ((readVar env name).2) name).1 = (readVar env name).1 := by
  intro env name
  exact ⟨rfl, rfl⟩

/-- C8: the loaded module binds exactly the three names MODEL,
BASE_MODEL and TEAMS, to the deployment path string, the base model
string, and the team tuple respectively, and nothing else. -/
theorem module_exports_exactly_three :
    loadedModule.map Prod.fst = ["TEAMS", "BASE_MODEL", "MODEL"] ∧
      readValue loadedModule "MODEL" = some (PyValue.str MODEL) ∧
      readValue loadedModule "BASE_MODEL" = some (PyValue.str BASE_MODEL) ∧
      readValue loadedModule "TEAMS" = some (PyValue.tupleStr TEAMS) := by
  decide

/-- C9: every entry of TEAMS uses only lowercase ASCII letters, digits
and hyphens, and neither begins nor ends with a hyphen. -/
theorem teams_entries_well_formed : ∀ s ∈ TEAMS, wellFormedSlug s := by decide

/-- C9 witness: the slug theorem applied at an entry containing a
digit. -/
theorem teams_entries_well_formed_witness :
    "agent-e2e-testing" ∈ TEAMS ∧ wellFormedSlug "agent-e2e-testing" :=
  ⟨by decide, teams_entries_well_formed "agent-e2e-testing" (by decide)⟩

/-- C10: TEAMS is the fixed 41-entry sequence whose first entry is
container-ecosystems and whose last entry is agent-discovery. -/
theorem teams_first_last :
    TEAMS.length = 41 ∧
      TEAMS.head? = some "container-ecosystems" ∧
      TEAMS.getLast? = some "agent-discovery" := by
  decide

end IssueModelConstants
